import Mathlib

/-
Verification development for the sentry-mcp-cli repository.

The embedded code:
  - src/sentry_cli/config/settings.py : the Settings record (field names and
    defaults are taken verbatim from the pydantic model).
  - src/sentry_cli/mcp/connector.py : SentryMCPConnector._build_server_params,
    connect, call_tool, list_tools, and the module-level helpers execute_tool
    and list_all_tools.
  - src/sentry_cli/main.py : get_tool_by_name (exact match loop, then the
    hyphen/underscore-normalized match loop).

The external MCP server process is modelled as a ServerBehavior record (its
reply to the handshake, to list_tools and to call_tool); the Python async
with-statement discipline of stdio_client and ClientSession is modelled by the
withScope combinator, which brackets the body's event trace with an
enter/exit event pair on every outcome, exactly as __aexit__ runs on normal
return, exception and cancellation alike.  Python truthiness of an
Optional[str] (used by the `if self.settings.openai_api_key:` test) is
modelled by truthyStrOpt.
-/

/-- Settings, from src/sentry_cli/config/settings.py.  Field names and default
values mirror the pydantic model; loading from .env files is out of scope. -/
structure Settings where
  sentry_access_token : String
  sentry_host : String := "sentry.io"
  sentry_default_org : Option String := none
  sentry_default_project : Option String := none
  openai_api_key : Option String := none
  output_format : String := "json"
  output_color : Bool := false
deriving Repr, DecidableEq

/-- StdioServerParameters: command, ordered argument list, and environment
mapping (modelled as an association list in insertion order, matching the
Python dict built in _build_server_params). -/
structure StdioServerParameters where
  command : String
  args : List String
  env : List (String × String)
deriving Repr, DecidableEq

/-- Python truthiness of an Optional[str]: None and the empty string are
falsy, every other string is truthy. -/
def truthyStrOpt : Option String → Bool
  | none => false
  | some s => s ≠ ""

/-- SentryMCPConnector._build_server_params, translated line by line from
src/sentry_cli/mcp/connector.py. -/
def build_server_params (s : Settings) : StdioServerParameters :=
  let args := ["@sentry/mcp-server@latest", "--access-token", s.sentry_access_token]
  let args := if s.sentry_host ≠ "sentry.io" then args ++ ["--host", s.sentry_host] else args
  let env := [("SENTRY_HOST", s.sentry_host)]
  let env :=
    if truthyStrOpt s.openai_api_key then
      env ++ [("OPENAI_API_KEY", s.openai_api_key.getD "")]
    else env
  { command := "npx", args := args, env := env }

/-- ToolDescriptor: a catalog entry advertised by the external process (name,
description, optional input schema).  The schema payload is opaque here. -/
structure ToolDescriptor where
  name : String
  description : String := ""
  inputSchema : Option String := none
deriving Repr, DecidableEq

/-- ToolResult: the opaque payload returned by one tool invocation. -/
structure ToolResult where
  payload : String
deriving Repr, DecidableEq

/-- Errors raised by the external process or the invoking context while a
request is in flight: a tool-execution failure carrying the upstream message,
or cancellation of the invoking context. -/
inductive CallError where
  | toolExecution (msg : String)
  | cancelled
deriving Repr, DecidableEq

/-- Error taxonomy of the connector module: the RuntimeError raised by the
`if not self._session` guard, a child process that failed to start, or an
error propagated from the external process (CallError). -/
inductive McpError where
  | sessionStateError
  | spawnFailed
  | upstream (e : CallError)
deriving Repr, DecidableEq

/-- Behavior of the external MCP server process for one invocation: whether
the subprocess starts, the handshake outcome, the reply to call_tool, and the
reply to list_tools (whose .tools field is the descriptor list). -/
structure ServerBehavior where
  spawnOk : Bool := true
  handshake : Except CallError Unit := .ok ()
  callResult : String → List (String × String) → Except CallError ToolResult :=
    fun _ _ => .ok { payload := "" }
  listing : Except CallError (List ToolDescriptor) := .ok []

/-- The connector object: the stored settings and the _session attribute,
which __init__ sets to None and connect sets to the established session.
Sessions are identified by the numeric id the ambient world allocates. -/
structure SentryMCPConnector where
  settings : Settings
  _session : Option Nat := none
deriving Repr, DecidableEq

/-- SentryMCPConnector.__init__ : stores the settings, sets _session to None. -/
def SentryMCPConnector.init (settings : Settings) : SentryMCPConnector :=
  { settings := settings, _session := none }

/-- Ambient state across invocations: a counter allocating session ids, and
the ids of sessions whose owning scopes (stdio transport and client session)
have already exited. -/
structure World where
  nextId : Nat := 0
  releasedSessions : List Nat := []
deriving Repr, DecidableEq

/-- SentryMCPConnector.connect : spawns the server, performs the handshake
inside the stdio_client and ClientSession scopes, stores the session in
_session and returns it.  The `return session` statement exits both
async-with scopes, so by the time connect returns, the session it stored is
already released; the model records this in releasedSessions. -/
def SentryMCPConnector.connect (c : SentryMCPConnector) (srv : ServerBehavior)
    (w : World) : Except McpError (SentryMCPConnector × Nat) × World :=
  if srv.spawnOk then
    match srv.handshake with
    | .ok _ =>
      let sid := w.nextId
      (.ok ({ c with _session := some sid }, sid),
       { nextId := w.nextId + 1, releasedSessions := w.releasedSessions ++ [sid] })
    | .error e => (.error (.upstream e), { w with nextId := w.nextId + 1 })
  else
    (.error .spawnFailed, w)

/-- SentryMCPConnector.call_tool : raises the session-state RuntimeError when
_session is None, otherwise forwards the request to the session. -/
def SentryMCPConnector.call_tool (c : SentryMCPConnector) (srv : ServerBehavior)
    (tool_name : String) (arguments : List (String × String)) :
    Except McpError ToolResult :=
  match c._session with
  | none => .error .sessionStateError
  | some _ =>
    match srv.callResult tool_name arguments with
    | .ok r => .ok r
    | .error e => .error (.upstream e)

/-- SentryMCPConnector.list_tools : raises the session-state RuntimeError when
_session is None, otherwise returns tools_response.tools. -/
def SentryMCPConnector.list_tools (c : SentryMCPConnector) (srv : ServerBehavior) :
    Except McpError (List ToolDescriptor) :=
  match c._session with
  | none => .error .sessionStateError
  | some _ =>
    match srv.listing with
    | .ok ts => .ok ts
    | .error e => .error (.upstream e)

/-- Resource events of one invocation: the child process being spawned and
fully released (process terminated, streams closed), and the client session
scope opening and closing. -/
inductive Event where
  | procSpawn
  | procRelease
  | sessionOpen
  | sessionClose
deriving Repr, DecidableEq

/-- The async with-statement: the enter event, then the body's events, then
the exit event, on every outcome of the body (normal return, error,
cancellation), as Python guarantees by running __aexit__ unconditionally. -/
def withScope (enter exits : Event) (body : List Event × α) : List Event × α :=
  (enter :: body.1 ++ [exits], body.2)

/-- execute_tool: the module-level helper that builds launch parameters,
enters the stdio_client and ClientSession scopes, performs the handshake,
calls the tool and returns, with both scopes guaranteed to exit first. -/
def execute_tool (settings : Settings) (srv : ServerBehavior) (tool_name : String)
    (arguments : List (String × String)) (w : World) :
    (List Event × Except McpError ToolResult) × World :=
  let connector := SentryMCPConnector.init settings
  let _params := build_server_params connector.settings
  if srv.spawnOk then
    let sid := w.nextId
    let innerResult : Except McpError ToolResult :=
      match srv.handshake with
      | .error e => .error (.upstream e)
      | .ok _ =>
        match srv.callResult tool_name arguments with
        | .error e => .error (.upstream e)
        | .ok r => .ok r
    (withScope .procSpawn .procRelease
      (withScope .sessionOpen .sessionClose ([], innerResult)),
     { nextId := w.nextId + 1, releasedSessions := w.releasedSessions ++ [sid] })
  else
    (([], .error .spawnFailed), w)

/-- list_all_tools: the module-level helper that builds launch parameters,
enters both scopes, performs the handshake, lists the tools and returns
tools_response.tools, with both scopes guaranteed to exit first. -/
def list_all_tools (settings : Settings) (srv : ServerBehavior) (w : World) :
    (List Event × Except McpError (List ToolDescriptor)) × World :=
  let connector := SentryMCPConnector.init settings
  let _params := build_server_params connector.settings
  if srv.spawnOk then
    let sid := w.nextId
    let innerResult : Except McpError (List ToolDescriptor) :=
      match srv.handshake with
      | .error e => .error (.upstream e)
      | .ok _ =>
        match srv.listing with
        | .error e => .error (.upstream e)
        | .ok ts => .ok ts
    (withScope .procSpawn .procRelease
      (withScope .sessionOpen .sessionClose ([], innerResult)),
     { nextId := w.nextId + 1, releasedSessions := w.releasedSessions ++ [sid] })
  else
    (([], .error .spawnFailed), w)

/-- A trace leaks nothing: every process spawn has a matching release, every
session open has a matching close, and when a process was spawned the very
last event is its release, so control returns only after cleanup. -/
def leakFree (t : List Event) : Bool :=
  (t.count Event.procSpawn == t.count Event.procRelease) &&
  (t.count Event.sessionOpen == t.count Event.sessionClose) &&
  (!(t.contains Event.procSpawn) || t.getLast? == some Event.procRelease)

/-- Python's str.replace("-", "_") for the single-character pattern used in
get_tool_by_name: replace every hyphen by an underscore. -/
def normChar (c : Char) : Char := if c = '-' then '_' else c

/-- Name normalization applied by get_tool_by_name to both the requested name
and each catalog name: hyphens become underscores. -/
def normName (s : String) : String := ⟨s.data.map normChar⟩

/-- The first loop of get_tool_by_name: first tool whose name equals the
requested name exactly. -/
def findExact : List ToolDescriptor → String → Option ToolDescriptor
  | [], _ => none
  | t :: ts, n => if t.name = n then some t else findExact ts n

/-- The second loop of get_tool_by_name: first tool whose normalized name
equals the (already normalized) requested name. -/
def findNormalized : List ToolDescriptor → String → Option ToolDescriptor
  | [], _ => none
  | t :: ts, n => if normName t.name = n then some t else findNormalized ts n

/-- get_tool_by_name from src/sentry_cli/main.py, applied to the catalog that
the source fetches via list_all_tools: the exact-match loop runs first; only
if it finds nothing does the normalized-match loop run; if both fail the
function returns None, which the CLI commands report as tool-not-found. -/
def get_tool_by_name (tools : List ToolDescriptor) (tool_name : String) :
    Option ToolDescriptor :=
  match findExact tools tool_name with
  | some t => some t
  | none => findNormalized tools (normName tool_name)

/-- The catalog entry used by the concrete scenarios. -/
def findOrganizationsTool : ToolDescriptor :=
  { name := "find_organizations", description := "Find organizations" }

/-- A minimal valid configuration: the required access token only. -/
def demoSettings : Settings := { sentry_access_token := "tok123" }

/-- A configuration whose secondary API key is present but empty. -/
def emptyKeySettings : Settings :=
  { sentry_access_token := "tok123", openai_api_key := some "" }

/-- A server whose catalog holds exactly the demo tool. -/
def listingServer : ServerBehavior := { listing := .ok [findOrganizationsTool] }

/-- The default server behavior: everything succeeds. -/
def demoServer : ServerBehavior := {}

/-- The initial world: no session allocated, none released. -/
def w0 : World := {}

/-- A self-hosted configuration: host differs from the implicit default. -/
def selfHostedSettings : Settings :=
  { sentry_access_token := "tok123", sentry_host := "sentry.example.com" }

/-- A configuration carrying a non-empty secondary API key. -/
def keyedSettings : Settings :=
  { sentry_access_token := "tok123", openai_api_key := some "sk-abc" }

/-- Catalog entry whose name uses underscores, listed first. -/
def toolUnderscoreFirst : ToolDescriptor := { name := "a_b_c" }

/-- Catalog entry differing from the previous one only by hyphens. -/
def toolHyphenSecond : ToolDescriptor := { name := "a-b-c" }

/-- Catalog entry "x-y": a normalized (not exact) match for "x_y". -/
def toolHyphenXY : ToolDescriptor := { name := "x-y" }

/-- Catalog entry "x_y": an exact match for "x_y". -/
def toolUnderscoreXY : ToolDescriptor := { name := "x_y" }

/-- Claim C1: for the configuration with access token "tok123", the default
host and no secondary API key, the launch arguments are exactly the base
triple, hence end in "--access-token", "tok123", contain no "--host" flag,
and the environment mapping is exactly the single host entry (the concrete
variable name in the source is SENTRY_HOST). -/
theorem end_to_end_default_launch_spec :
    (build_server_params demoSettings).args =
      ["@sentry/mcp-server@latest", "--access-token", "tok123"] ∧
    (∃ front, (build_server_params demoSettings).args =
      front ++ ["--access-token", "tok123"]) ∧
    "--host" ∉ (build_server_params demoSettings).args ∧
    (build_server_params demoSettings).env = [("SENTRY_HOST", "sentry.io")] :=
  ⟨by decide, ⟨["@sentry/mcp-server@latest"], by decide⟩, by decide, by decide⟩

/-- Claim C2: on a connector whose session was never connected (the _session
attribute is still None), both call_tool and list_tools fail with the
session-state error; neither returns an ok result. -/
theorem call_on_unconnected_connector_errors (c : SentryMCPConnector)
    (srv : ServerBehavior) (tool_name : String)
    (arguments : List (String × String)) (h : c._session = none) :
    c.call_tool srv tool_name arguments = .error .sessionStateError ∧
    c.list_tools srv = .error .sessionStateError := by
  constructor <;>
    simp [SentryMCPConnector.call_tool, SentryMCPConnector.list_tools, h]

/-- Witness for C2 at a freshly constructed connector. -/
theorem call_on_unconnected_connector_errors_witness :
    (SentryMCPConnector.init demoSettings).call_tool demoServer
      "find_organizations" [] = .error .sessionStateError ∧
    (SentryMCPConnector.init demoSettings).list_tools demoServer =
      .error .sessionStateError :=
  call_on_unconnected_connector_errors (SentryMCPConnector.init demoSettings)
    demoServer "find_organizations" [] rfl

/-- Claim C4: when the configured host equals the implicit default the
argument list is exactly the base triple (so no host-override flag is
appended); when it differs, the list is the base triple followed by the
"--host" flag and the configured host, so it contains the flag. -/
theorem host_flag_iff_nondefault_host (s : Settings) :
    (s.sentry_host = "sentry.io" →
      (build_server_params s).args =
        ["@sentry/mcp-server@latest", "--access-token", s.sentry_access_token]) ∧
    (s.sentry_host ≠ "sentry.io" →
      (build_server_params s).args =
        ["@sentry/mcp-server@latest", "--access-token", s.sentry_access_token,
         "--host", s.sentry_host] ∧
      "--host" ∈ (build_server_params s).args) := by
  constructor
  · intro h
    simp [build_server_params, h]
  · intro h
    refine ⟨by simp [build_server_params, h], ?_⟩
    simp [build_server_params, h]

/-- Witness for C4 at a default-host and a self-hosted configuration. -/
theorem host_flag_iff_nondefault_host_witness :
    (build_server_params demoSettings).args =
      ["@sentry/mcp-server@latest", "--access-token",
       demoSettings.sentry_access_token] ∧
    ((build_server_params selfHostedSettings).args =
      ["@sentry/mcp-server@latest", "--access-token",
       selfHostedSettings.sentry_access_token,
       "--host", selfHostedSettings.sentry_host] ∧
     "--host" ∈ (build_server_params selfHostedSettings).args) :=
  ⟨(host_flag_iff_nondefault_host demoSettings).1 rfl,
   (host_flag_iff_nondefault_host selfHostedSettings).2 (by decide)⟩

/-- Claim C5, counterexample: a configuration whose secondary API key is
present but equal to the empty string.  The key is present in the
configuration, yet the constructed environment does not set the variable,
refuting "for every configuration where the key is present, the variable is
set to its value". -/
theorem present_empty_key_missing_from_env :
    emptyKeySettings.openai_api_key.isSome = true ∧
    (build_server_params emptyKeySettings).env.lookup "OPENAI_API_KEY" =
      none := by
  exact ⟨rfl, by decide⟩

/-- Claim C5 as amended: an absent key sets no variable, a present-but-empty
key also sets no variable, and a present non-empty key sets the variable to
its value. -/
theorem openai_env_var_requires_nonempty_key (s : Settings) :
    (s.openai_api_key = none →
      (build_server_params s).env.lookup "OPENAI_API_KEY" = none) ∧
    (s.openai_api_key = some "" →
      (build_server_params s).env.lookup "OPENAI_API_KEY" = none) ∧
    (∀ k, s.openai_api_key = some k → k ≠ "" →
      (build_server_params s).env.lookup "OPENAI_API_KEY" = some k) := by
  refine ⟨fun h => ?_, fun h => ?_, fun k h hk => ?_⟩
  · simp [build_server_params, truthyStrOpt, h, List.lookup]
  · simp [build_server_params, truthyStrOpt, h, List.lookup]
  · simp [build_server_params, truthyStrOpt, h, hk, List.lookup]

/-- Witness for the amended C5 on three concrete configurations. -/
theorem openai_env_var_requires_nonempty_key_witness :
    (build_server_params demoSettings).env.lookup "OPENAI_API_KEY" = none ∧
    (build_server_params emptyKeySettings).env.lookup "OPENAI_API_KEY" = none ∧
    (build_server_params keyedSettings).env.lookup "OPENAI_API_KEY" =
      some "sk-abc" :=
  ⟨(openai_env_var_requires_nonempty_key demoSettings).1 rfl,
   (openai_env_var_requires_nonempty_key emptyKeySettings).2.1 rfl,
   (openai_env_var_requires_nonempty_key keyedSettings).2.2 "sk-abc" rfl
     (by decide)⟩

/-- Claim C10: the environment carries OPENAI_API_KEY exactly when the
configured key is a non-empty string (Python truthiness, not a not-None
check), and for a present key the variable's value is the key when it is
non-empty and absent when it is empty. -/
theorem openai_env_iff_truthy_key (s : Settings) :
    (((build_server_params s).env.lookup "OPENAI_API_KEY").isSome = true ↔
      ∃ k, s.openai_api_key = some k ∧ k ≠ "") ∧
    (∀ k, s.openai_api_key = some k →
      (build_server_params s).env.lookup "OPENAI_API_KEY" =
        if k = "" then none else some k) := by
  cases h : s.openai_api_key with
  | none =>
    refine ⟨?_, ?_⟩
    · simp [build_server_params, truthyStrOpt, h, List.lookup]
    · intro k hk
      exact absurd hk (by simp)
  | some k =>
    refine ⟨?_, ?_⟩
    · by_cases hk : k = "" <;>
        simp [build_server_params, truthyStrOpt, h, hk, List.lookup]
    · intro k2 hk2
      rw [Option.some.injEq] at hk2
      subst hk2
      by_cases hk : k = "" <;>
        simp [build_server_params, truthyStrOpt, h, hk, List.lookup]

/-- Witness for C10 at a configuration with a non-empty key. -/
theorem openai_env_iff_truthy_key_witness :
    ((build_server_params keyedSettings).env.lookup "OPENAI_API_KEY").isSome =
      true ∧
    (build_server_params keyedSettings).env.lookup "OPENAI_API_KEY" =
      (if ("sk-abc" : String) = "" then none else some "sk-abc") :=
  ⟨(openai_env_iff_truthy_key keyedSettings).1.mpr ⟨"sk-abc", rfl, by decide⟩,
   (openai_env_iff_truthy_key keyedSettings).2 "sk-abc" rfl⟩

/-- Claim C8: once connect completes successfully, the connector's _session
attribute holds the session, yet that session's owning scopes already exited
when connect returned (it is in releasedSessions); every subsequent call_tool
and list_tools on the connector passes the initialization guard and never
raises the session-state error. -/
theorem connect_marks_connector_despite_released_session (settings : Settings)
    (srv : ServerBehavior) (w : World)
    (hspawn : srv.spawnOk = true) (hhs : srv.handshake = .ok ()) :
    ∃ c sid,
      ((SentryMCPConnector.init settings).connect srv w).1 = .ok (c, sid) ∧
      c._session = some sid ∧
      sid ∈ ((SentryMCPConnector.init settings).connect srv w).2.releasedSessions ∧
      (∀ tool_name arguments,
        c.call_tool srv tool_name arguments ≠ .error .sessionStateError) ∧
      c.list_tools srv ≠ .error .sessionStateError := by
  refine ⟨{ settings := settings, _session := some w.nextId }, w.nextId,
    ?_, rfl, ?_, ?_, ?_⟩
  · simp [SentryMCPConnector.connect, SentryMCPConnector.init, hspawn, hhs]
  · simp [SentryMCPConnector.connect, SentryMCPConnector.init, hspawn, hhs]
  · intro tool_name arguments
    simp only [SentryMCPConnector.call_tool]
    cases srv.callResult tool_name arguments <;> simp
  · simp only [SentryMCPConnector.list_tools]
    cases srv.listing <;> simp

/-- Witness for C8 on the default server behavior from the initial world. -/
theorem connect_marks_connector_despite_released_session_witness :
    ∃ c sid,
      ((SentryMCPConnector.init demoSettings).connect demoServer w0).1 =
        .ok (c, sid) ∧
      c._session = some sid ∧
      sid ∈ ((SentryMCPConnector.init demoSettings).connect demoServer
        w0).2.releasedSessions ∧
      (∀ tool_name arguments,
        c.call_tool demoServer tool_name arguments ≠
          .error .sessionStateError) ∧
      c.list_tools demoServer ≠ .error .sessionStateError :=
  connect_marks_connector_despite_released_session demoSettings demoServer w0
    rfl rfl

/-- Claim C6: on every exit path of execute_tool and list_all_tools — normal
return, handshake error, tool-execution error, cancellation, and the
spawn-failure path where nothing was acquired — the event trace is leak-free:
spawn/release and open/close are balanced and the process release is the last
event before control returns. -/
theorem single_run_helpers_leak_free (settings : Settings) (srv : ServerBehavior)
    (tool_name : String) (arguments : List (String × String)) (w : World) :
    leakFree (execute_tool settings srv tool_name arguments w).1.1 = true ∧
    leakFree (list_all_tools settings srv w).1.1 = true := by
  cases hsp : srv.spawnOk <;>
    constructor <;>
      simp [execute_tool, list_all_tools, hsp, withScope, leakFree]

/-- Claim C7: the result of list_all_tools does not depend on the ambient
world, so two independent invocations against an unchanged external catalog
return the same entries, and on success the returned list is exactly the
upstream catalog, unmodified and in upstream order. -/
theorem list_all_tools_stable_and_faithful (settings : Settings)
    (srv : ServerBehavior) (w w2 : World)
    (hspawn : srv.spawnOk = true) (hhs : srv.handshake = .ok ())
    (ts : List ToolDescriptor) (hlist : srv.listing = .ok ts) :
    (list_all_tools settings srv w).1.2 = (list_all_tools settings srv w2).1.2 ∧
    (list_all_tools settings srv w).1.2 = .ok ts := by
  constructor <;> simp [list_all_tools, hspawn, hhs, hlist, withScope]

/-- Witness for C7: the second invocation runs in the world left behind by
the first, and both return the demo catalog. -/
theorem list_all_tools_stable_and_faithful_witness :
    (list_all_tools demoSettings listingServer w0).1.2 =
      (list_all_tools demoSettings listingServer
        (list_all_tools demoSettings listingServer w0).2).1.2 ∧
    (list_all_tools demoSettings listingServer w0).1.2 =
      .ok [findOrganizationsTool] :=
  list_all_tools_stable_and_faithful demoSettings listingServer w0
    (list_all_tools demoSettings listingServer w0).2 rfl rfl
    [findOrganizationsTool] rfl

/-- The exact-match loop finds nothing exactly when no catalog name equals
the requested name. -/
theorem findExact_eq_none_iff (ts : List ToolDescriptor) (n : String) :
    findExact ts n = none ↔ ∀ t ∈ ts, t.name ≠ n := by
  induction ts with
  | nil => simp [findExact]
  | cons t ts ih =>
    by_cases h : t.name = n
    · simp [findExact, h]
    · simp [findExact, h, ih]

/-- The normalized-match loop finds nothing exactly when no catalog name
normalizes to the requested key. -/
theorem findNormalized_eq_none_iff (ts : List ToolDescriptor) (n : String) :
    findNormalized ts n = none ↔ ∀ t ∈ ts, normName t.name ≠ n := by
  induction ts with
  | nil => simp [findNormalized]
  | cons t ts ih =>
    by_cases h : normName t.name = n
    · simp [findNormalized, h]
    · simp [findNormalized, h, ih]

/-- Whatever the exact-match loop returns is a catalog entry whose name is
exactly the requested name. -/
theorem findExact_some_name (ts : List ToolDescriptor) (n : String)
    (t : ToolDescriptor) (h : findExact ts n = some t) : t ∈ ts ∧ t.name = n := by
  induction ts with
  | nil => simp [findExact] at h
  | cons u ts ih =>
    by_cases hu : u.name = n
    · simp [findExact, hu] at h
      subst h
      exact ⟨List.mem_cons_self u ts, hu⟩
    · simp [findExact, hu] at h
      obtain ⟨hm, hn⟩ := ih h
      exact ⟨List.mem_cons_of_mem _ hm, hn⟩

/-- Entries that match neither exactly nor after normalization can be peeled
off the front of the catalog without changing the exact-match loop. -/
theorem findExact_append_of_no_match (pre rest : List ToolDescriptor)
    (n : String) (h : ∀ u ∈ pre, u.name ≠ n) :
    findExact (pre ++ rest) n = findExact rest n := by
  induction pre with
  | nil => rfl
  | cons u pre ih =>
    have hu : u.name ≠ n := h u (List.mem_cons_self u pre)
    have hrec := ih (fun v hv => h v (List.mem_cons_of_mem _ hv))
    simpa [findExact, hu] using hrec

/-- Non-matching entries can be peeled off the front of the catalog without
changing the normalized-match loop. -/
theorem findNormalized_append_of_no_match (pre rest : List ToolDescriptor)
    (n : String) (h : ∀ u ∈ pre, normName u.name ≠ n) :
    findNormalized (pre ++ rest) n = findNormalized rest n := by
  induction pre with
  | nil => rfl
  | cons u pre ih =>
    have hu : normName u.name ≠ n := h u (List.mem_cons_self u pre)
    have hrec := ih (fun v hv => h v (List.mem_cons_of_mem _ hv))
    simpa [findNormalized, hu] using hrec

/-- Claim C3: get_tool_by_name returns None exactly when no catalog entry
matches the requested name exactly or after hyphen/underscore normalization;
an exact match guarantees the returned entry's name equals the requested
name; a normalized match guarantees success; and on the concrete catalog
containing find_organizations, resolving "find-organizations" succeeds via
the normalized match while "unknown-tool" yields tool-not-found. -/
theorem get_tool_resolution_order :
    (∀ tools tool_name, get_tool_by_name tools tool_name = none ↔
      ∀ t ∈ tools, t.name ≠ tool_name ∧ normName t.name ≠ normName tool_name) ∧
    (∀ tools tool_name t, t ∈ tools → t.name = tool_name →
      ∃ r, get_tool_by_name tools tool_name = some r ∧ r.name = tool_name) ∧
    (∀ tools tool_name t, t ∈ tools → normName t.name = normName tool_name →
      ∃ r, get_tool_by_name tools tool_name = some r) ∧
    get_tool_by_name [findOrganizationsTool] "find-organizations" =
      some findOrganizationsTool ∧
    get_tool_by_name [findOrganizationsTool] "unknown-tool" = none := by
  refine ⟨?_, ?_, ?_, by decide, by decide⟩
  · intro tools n
    cases h : findExact tools n with
    | none =>
      simp only [get_tool_by_name, h]
      rw [findNormalized_eq_none_iff]
      rw [findExact_eq_none_iff] at h
      constructor
      · intro hall t ht
        exact ⟨h t ht, hall t ht⟩
      · intro hall t ht
        exact (hall t ht).2
    | some t =>
      obtain ⟨hm, hn⟩ := findExact_some_name tools n t h
      simp only [get_tool_by_name, h]
      constructor
      · intro habs
        exact absurd habs (by simp)
      · intro hall
        exact absurd hn (hall t hm).1
  · intro tools n t hm hn
    cases h : findExact tools n with
    | none =>
      rw [findExact_eq_none_iff] at h
      exact absurd hn (h t hm)
    | some r =>
      obtain ⟨_, hr⟩ := findExact_some_name tools n r h
      exact ⟨r, by simp [get_tool_by_name, h], hr⟩
  · intro tools n t hm hn
    cases h : findExact tools n with
    | some r => exact ⟨r, by simp [get_tool_by_name, h]⟩
    | none =>
      cases h2 : findNormalized tools (normName n) with
      | some r => exact ⟨r, by simp [get_tool_by_name, h, h2]⟩
      | none =>
        rw [findNormalized_eq_none_iff] at h2
        exact absurd hn (h2 t hm)

/-- Witness for C3: the normalized-match success clause instantiated on the
concrete catalog, plus the concrete not-found case. -/
theorem get_tool_resolution_order_witness :
    (∃ r, get_tool_by_name [findOrganizationsTool] "find-organizations" =
      some r) ∧
    get_tool_by_name [findOrganizationsTool] "unknown-tool" = none :=
  ⟨get_tool_resolution_order.2.2.1 [findOrganizationsTool] "find-organizations"
      findOrganizationsTool (by simp) (by decide),
   get_tool_resolution_order.2.2.2.2⟩

/-- Claim C9: when no catalog entry matches the requested name exactly, the
returned entry is the first entry in catalog order whose normalized name
matches (even when later entries also match); and whenever an exact match
exists, get_tool_by_name returns the first exact match, so an exact match
always takes precedence over every normalized match. -/
theorem normalized_match_first_in_catalog_order
    (tools pre post : List ToolDescriptor) (t : ToolDescriptor)
    (tool_name : String)
    (hsplit : tools = pre ++ t :: post)
    (hnoexact : ∀ u ∈ tools, u.name ≠ tool_name)
    (hmatch : normName t.name = normName tool_name)
    (hpre : ∀ u ∈ pre, normName u.name ≠ normName tool_name) :
    get_tool_by_name tools tool_name = some t ∧
    (∀ tools2 pre2 post2 (u : ToolDescriptor) name2,
      tools2 = pre2 ++ u :: post2 → u.name = name2 →
      (∀ v ∈ pre2, v.name ≠ name2) →
      get_tool_by_name tools2 name2 = some u) := by
  subst hsplit
  constructor
  · have hex : findExact (pre ++ t :: post) tool_name = none :=
      (findExact_eq_none_iff _ _).mpr hnoexact
    have hnorm : findNormalized (pre ++ t :: post) (normName tool_name) =
        some t := by
      rw [findNormalized_append_of_no_match pre _ _ hpre]
      simp [findNormalized, hmatch]
    simp [get_tool_by_name, hex, hnorm]
  · intro tools2 pre2 post2 u name2 hsp2 hu hpre2
    subst hsp2
    have hex : findExact (pre2 ++ u :: post2) name2 = some u := by
      rw [findExact_append_of_no_match pre2 _ _ hpre2]
      simp [findExact, hu]
    simp [get_tool_by_name, hex]

/-- Witness for C9: a catalog holding two entries that differ only by
hyphen/underscore resolves an inexact request to the first of them, and an
exact match placed after a normalized match still wins. -/
theorem normalized_match_first_in_catalog_order_witness :
    get_tool_by_name [toolUnderscoreFirst, toolHyphenSecond] "a_b-c" =
      some toolUnderscoreFirst ∧
    get_tool_by_name [toolHyphenXY, toolUnderscoreXY] "x_y" =
      some toolUnderscoreXY := by
  have h := normalized_match_first_in_catalog_order
    [toolUnderscoreFirst, toolHyphenSecond] [] [toolHyphenSecond]
    toolUnderscoreFirst "a_b-c" rfl (by decide) (by decide) (by decide)
  exact ⟨h.1, h.2 [toolHyphenXY, toolUnderscoreXY] [toolHyphenXY] []
    toolUnderscoreXY "x_y" rfl (by decide) (by decide)⟩
